import Mathlib

/-!
Verification of the capture-analyze-submit workflow of the personal
assistant trackers (fitness tracker and meal-hour tracker).

The two Reflex state classes (`WorkoutState` in
`src/fitness_tracker/app/app.py` and `MealState` in
`src/meal_hour/app/app.py`) are shallowly embedded as Lean structures,
and each event handler as a pure state-transformer.  External
collaborators (object storage, vision extraction, the BigQuery
warehouse) are parameters: each remote call's outcome is an explicit
`Option`/`Except` argument, and the warehouse calls a handler issues are
returned as an explicit call list.  Python `int` values are modelled as
`Int`, Python floats arising from `h + m / 60.0` as `Rat`, byte strings
as `List Nat`, and `datetime.now()` as a number of seconds since the
Unix epoch (the app never converts time zones, so an abstract instant
with civil-calendar formatting is faithful).
-/

/-- Zero-padded two-digit decimal rendering, as `strftime` does for
`%m %d %H %M %S`. -/
def pad2 (n : Nat) : String :=
  if n < 10 then "0" ++ toString n else toString n

/-- Zero-padded four-digit decimal rendering, as `strftime` does for `%Y`. -/
def pad4 (n : Nat) : String :=
  if n < 10 then "000" ++ toString n
  else if n < 100 then "00" ++ toString n
  else if n < 1000 then "0" ++ toString n
  else toString n

/-- A civil (proleptic Gregorian) calendar date. -/
structure CivilDate where
  year : Nat
  month : Nat
  day : Nat
deriving Repr, DecidableEq

/-- Civil date from a count of days since 1970-01-01 (the standard
days-from-civil inverse algorithm, restricted to nonnegative day
counts, which covers every instant the app can sample). -/
def civilFromDays (z0 : Nat) : CivilDate :=
  let z := z0 + 719468
  let era := z / 146097
  let doe := z % 146097
  let yoe := (doe - doe / 1460 + doe / 36524 - doe / 146096) / 365
  let y := yoe + era * 400
  let doy := doe - (365 * yoe + yoe / 4 - yoe / 100)
  let mp := (5 * doy + 2) / 153
  let d := doy - (153 * mp + 2) / 5 + 1
  let m := if mp < 10 then mp + 3 else mp - 9
  { year := if m ≤ 2 then y + 1 else y, month := m, day := d }

/-- `datetime.strftime("%Y-%m-%d %H:%M:%S")` on an instant given as
seconds since the epoch. -/
def fmtDateTime (t : Nat) : String :=
  let date := civilFromDays (t / 86400)
  let sod := t % 86400
  pad4 date.year ++ "-" ++ pad2 date.month ++ "-" ++ pad2 date.day ++ " " ++
    pad2 (sod / 3600) ++ ":" ++ pad2 (sod % 3600 / 60) ++ ":" ++ pad2 (sod % 60)

/-- The standard base64 alphabet. -/
def b64Alphabet : List Char :=
  "ABCDEFGHIJKLMNOPQRSTUVWXYZabcdefghijklmnopqrstuvwxyz0123456789+/".data

/-- The base64 digit for a 6-bit value. -/
def b64Char (n : Nat) : Char := b64Alphabet.getD n 'A'

/-- Base64 encoding of a byte list (`base64.b64encode`), three input
bytes per four output characters, `=`-padded. -/
def b64Encode : List Nat → List Char
  | [] => []
  | [a] => [b64Char (a / 4), b64Char (a % 4 * 16), '=', '=']
  | [a, b] => [b64Char (a / 4), b64Char (a % 4 * 16 + b / 16), b64Char (b % 16 * 4), '=']
  | a :: b :: c :: rest =>
      b64Char (a / 4) :: b64Char (a % 4 * 16 + b / 16) ::
        b64Char (b % 16 * 4 + c / 64) :: b64Char (c % 64) :: b64Encode rest

/-- Base64 encoding as a string (`base64.b64encode(data).decode()`). -/
def b64EncodeStr (bytes : List Nat) : String := String.mk (b64Encode bytes)

/-- Python whitespace recognised by `str.strip()` and `int()` (ASCII part). -/
def isPySpace (c : Char) : Bool :=
  c = ' ' || c = '\t' || c = '\n' || c = '\r' || c = '\x0b' || c = '\x0c'

/-- Python `str.strip()`: drop leading and trailing whitespace. -/
def py_strip (s : String) : String :=
  String.mk (((s.data.dropWhile isPySpace).reverse.dropWhile isPySpace).reverse)

/-- Decimal digits after the first one, allowing single interior
underscores as Python `int()` does; accumulates the value. -/
def pyDigitsAux : Nat → List Char → Option Nat
  | acc, [] => some acc
  | _, ['_'] => none
  | acc, '_' :: c :: cs =>
      if c.isDigit then pyDigitsAux (10 * acc + (c.toNat - 48)) cs else none
  | acc, c :: cs =>
      if c.isDigit then pyDigitsAux (10 * acc + (c.toNat - 48)) cs else none

/-- A nonempty digit run (with Python underscore grouping) as a
natural number; `none` when the characters are not such a run. -/
def pyDigits : List Char → Option Nat
  | [] => none
  | c :: cs => if c.isDigit then pyDigitsAux (c.toNat - 48) cs else none

/-- Python `int(s)` for a string: strip whitespace, optional sign,
nonempty digit run; `none` models a raised `ValueError`. -/
def pyInt (s : String) : Option Int :=
  let cs := ((s.data.dropWhile isPySpace).reverse.dropWhile isPySpace).reverse
  match cs with
  | '-' :: rest => (pyDigits rest).map (fun n => -(n : Int))
  | '+' :: rest => (pyDigits rest).map (fun n => (n : Int))
  | _ => (pyDigits cs).map (fun n => (n : Int))

/-- `int(value) if value else 0` guarded by `except ValueError: 0` —
the exact expression of the numeric form setters. -/
def pyIntOrZero (value : String) : Int :=
  if value = "" then 0 else (pyInt value).getD 0

/-! ## Fitness tracker (`WorkoutState`) -/

/-- The structured output schema of the fitness vision call
(pydantic model `WorkoutAnalysis`). -/
structure WorkoutAnalysis where
  image_description : String
  exercise_type : String
  duration_hours : Int
  duration_minutes : Int
  calories_burned : Int
deriving Repr, DecidableEq

/-- A row of the fitness history query (`get_workout_history`). -/
structure FitnessHistRow where
  workout_timestamp : Nat
  exercise_type : String
  duration_hours : Rat
  duration_minutes : Int
  calories_burned : Int
  notes : String
deriving Repr, DecidableEq

/-- The single row appended by `submit_workout` (the `data` dict fed to
`pd.DataFrame` and `df.to_gbq`). -/
structure FitnessRow where
  workout_timestamp : Nat
  exercise_type : String
  duration_hours : Rat
  duration_minutes : Int
  calories_burned : Int
  notes : String
  image_uri : String
  created_at : Nat
deriving Repr, DecidableEq

/-- The mutable per-session state of the fitness tracker (the field
defaults are the class-level initialisers of `WorkoutState`). -/
structure WorkoutState where
  notes : String := ""
  exercise_type : String := ""
  duration_hours : Int := 0
  duration_minutes : Int := 0
  calories_burned : Int := 0
  image_uri : String := ""
  image_preview : String := ""
  temp_file_data : List Nat := []
  workout_description : String := ""
  success_message : String := ""
  error_message : String := ""
  is_loading : Bool := false
  is_analyzing : Bool := false
  workout_history : List FitnessHistRow := []
  daily_total_hours : Rat := 0
  daily_total_calories : Int := 0
  weekly_total_hours : Rat := 0
  weekly_total_calories : Int := 0
deriving Repr, DecidableEq

/-- A warehouse call issued by `submit_workout`. -/
inductive FitnessCall
  | append (row : FitnessRow)
  | queryHistory
  | queryDaily
  | queryWeekly
deriving Repr, DecidableEq

/-- Outcomes of the remote calls `submit_workout` may reach:
`appendResult = some e` models `df.to_gbq` raising `e`; the query
results model the three read queries of the refresh step. -/
structure FitnessEnv where
  appendResult : Option String
  historyResult : Except String (List FitnessHistRow)
  dailyResult : Except String (Rat × Int)
  weeklyResult : Except String (Rat × Int)

namespace WorkoutState

/-- `set_duration_hours`: parse the input string, defaulting to 0 on
empty input or `ValueError`. -/
def set_duration_hours (s : WorkoutState) (value : String) : WorkoutState :=
  { s with duration_hours := pyIntOrZero value }

/-- `set_duration_minutes`: parse the input string, defaulting to 0 on
empty input or `ValueError`. -/
def set_duration_minutes (s : WorkoutState) (value : String) : WorkoutState :=
  { s with duration_minutes := pyIntOrZero value }

/-- `set_calories_burned`: parse the input string, defaulting to 0 on
empty input or `ValueError`. -/
def set_calories_burned (s : WorkoutState) (value : String) : WorkoutState :=
  { s with calories_burned := pyIntOrZero value }

/-- `handle_file_select`: clear the error message, then for each file
either buffer its bytes and set the base64 preview, or record a load
error (`file.read()` raising is the `.error` case). -/
def handle_file_select (s : WorkoutState)
    (files : List (Except String (List Nat))) : WorkoutState :=
  files.foldl
    (fun s file =>
      match file with
      | .ok upload_data =>
          { s with temp_file_data := upload_data,
                   image_preview := "data:image/png;base64," ++ b64EncodeStr upload_data }
      | .error e => { s with error_message := "Error loading image: " ++ e })
    { s with error_message := "" }

/-- `analyze_workout_image`: with `extract` the outcome of the Gemini
call, return the updated state and, when the call raised, the re-raised
exception (`some e`) for the caller to catch. -/
def analyze_workout_image (s : WorkoutState)
    (extract : Except String WorkoutAnalysis) : WorkoutState × Option String :=
  if s.image_uri = "" then (s, none)
  else
    match extract with
    | .error e => ({ s with error_message := "Error analyzing image: " ++ e }, some e)
    | .ok result =>
        ({ s with workout_description := result.image_description,
                  exercise_type := result.exercise_type,
                  duration_hours := result.duration_hours,
                  duration_minutes := result.duration_minutes,
                  calories_burned := result.calories_burned,
                  notes := result.image_description }, none)

/-- `handle_upload_and_analyze`: guard on a selected file, set the busy
flag, upload (outcome `upload`: `some e` models the storage call
raising), record the new `gs://` URI, analyze, and clear the busy flag
in the `finally` on every path.  Any exception — including the one
re-raised by `analyze_workout_image` — lands in the single
`except` clause, which labels it an upload error. -/
def handle_upload_and_analyze (s : WorkoutState) (uuid : String)
    (upload : Option String) (extract : Except String WorkoutAnalysis) :
    WorkoutState :=
  if s.temp_file_data = [] then
    { s with error_message := "Please select an image first!" }
  else
    let s := { s with is_analyzing := true, error_message := "" }
    match upload with
    | some e =>
        { s with error_message := "Error uploading image: " ++ e, is_analyzing := false }
    | none =>
        let s := { s with
          image_uri := "gs://personal_assistant_agent/workout_images/" ++ uuid ++ ".png" }
        match analyze_workout_image s extract with
        | (s, some e) =>
            { s with error_message := "Error uploading image: " ++ e, is_analyzing := false }
        | (s, none) => { s with is_analyzing := false }

/-- `clear_image`: reset the image buffer, preview, URI and analysis text. -/
def clear_image (s : WorkoutState) : WorkoutState :=
  { s with image_uri := "", image_preview := "", workout_description := "",
           temp_file_data := [] }

/-- `get_workout_history`: install the query result, or record a
history-loading error. -/
def get_workout_history (s : WorkoutState)
    (res : Except String (List FitnessHistRow)) : WorkoutState :=
  match res with
  | .ok rows => { s with workout_history := rows }
  | .error e => { s with error_message := "Error loading history: " ++ e }

/-- `calculate_daily_totals`: install the aggregate result, or record
an error. -/
def calculate_daily_totals (s : WorkoutState)
    (res : Except String (Rat × Int)) : WorkoutState :=
  match res with
  | .ok r => { s with daily_total_hours := r.1, daily_total_calories := r.2 }
  | .error e => { s with error_message := "Error calculating daily totals: " ++ e }

/-- `calculate_weekly_totals`: install the aggregate result, or record
an error. -/
def calculate_weekly_totals (s : WorkoutState)
    (res : Except String (Rat × Int)) : WorkoutState :=
  match res with
  | .ok r => { s with weekly_total_hours := r.1, weekly_total_calories := r.2 }
  | .error e => { s with error_message := "Error calculating weekly totals: " ++ e }

/-- `submit_workout`: clear messages, validate (exercise type set, a
nonzero duration), build the single row from one clock sample `now`,
append it, and on success show the success message, reset the form,
clear the image and refresh the three read views; the busy flag is
cleared in the `finally` on every path.  The second component lists the
warehouse calls issued. -/
def submit_workout (s : WorkoutState) (now : Nat) (env : FitnessEnv) :
    WorkoutState × List FitnessCall :=
  let s := { s with error_message := "", success_message := "" }
  if s.exercise_type = "" then
    ({ s with error_message := "Please select an exercise type!" }, [])
  else if s.duration_hours = (0 : Int) ∧ s.duration_minutes = (0 : Int) then
    ({ s with error_message := "Please enter a duration!" }, [])
  else
    let s := { s with is_loading := true }
    let total_hours : Rat := (s.duration_hours : Rat) + (s.duration_minutes : Rat) / 60
    let row : FitnessRow :=
      { workout_timestamp := now, exercise_type := s.exercise_type,
        duration_hours := total_hours, duration_minutes := s.duration_minutes,
        calories_burned := s.calories_burned, notes := s.notes,
        image_uri := if s.image_uri = "" then "" else s.image_uri,
        created_at := now }
    match env.appendResult with
    | some e =>
        ({ s with error_message := "Error: " ++ e, is_loading := false }, [.append row])
    | none =>
        let s := { s with
          success_message := "Workout recorded! " ++ s.exercise_type ++ " for " ++
            toString s.duration_hours ++ "h " ++ toString s.duration_minutes ++ "m" }
        let s := { s with notes := "", exercise_type := "", duration_hours := 0,
                          duration_minutes := 0, calories_burned := 0 }
        let s := clear_image s
        let s := get_workout_history s env.historyResult
        let s := calculate_daily_totals s env.dailyResult
        let s := calculate_weekly_totals s env.weeklyResult
        ({ s with is_loading := false },
         [.append row, .queryHistory, .queryDaily, .queryWeekly])

end WorkoutState

/-- The WHERE clause of `calculate_weekly_totals`, with dates as day
numbers: `DATE(workout_timestamp) >= DATE_SUB(CURRENT_DATE(), INTERVAL 7 DAY)`. -/
structure FitnessTableRow where
  workout_date : Int
  duration_hours : Rat
  calories_burned : Int
deriving Repr, DecidableEq

/-- The aggregate computed by the weekly-totals query of
`WorkoutState.calculate_weekly_totals`:
`COALESCE(SUM(duration_hours), 0)` and `COALESCE(SUM(calories_burned), 0)`
over the rows whose date passes the `DATE_SUB(..., INTERVAL 7 DAY)`
filter (`today` is `CURRENT_DATE()` as a day number). -/
def weekly_totals_query (today : Int) (table : List FitnessTableRow) : Rat × Int :=
  (((table.filter (fun r => today - 7 ≤ r.workout_date)).map (fun r => r.duration_hours)).sum,
   ((table.filter (fun r => today - 7 ≤ r.workout_date)).map (fun r => r.calories_burned)).sum)

/-- The weekly aggregate as the spec's words describe an 8-day trailing
window: each record contributes exactly when its date is at least
`today - 7`, records dated earlier contribute nothing. -/
def spec_weekly_window_sum (today : Int) : List FitnessTableRow → Rat × Int
  | [] => (0, 0)
  | r :: rs =>
      let rest := spec_weekly_window_sum today rs
      if today - 7 ≤ r.workout_date then
        (r.duration_hours + rest.1, r.calories_burned + rest.2)
      else rest

/-- The weekly aggregate as claim C3's words describe it: a 7-day
trailing window, records dated before `today - 6` contribute nothing. -/
def claimed_weekly_totals (today : Int) : List FitnessTableRow → Rat × Int
  | [] => (0, 0)
  | r :: rs =>
      let rest := claimed_weekly_totals today rs
      if today - 6 ≤ r.workout_date then
        (r.duration_hours + rest.1, r.calories_burned + rest.2)
      else rest

/-! ## Meal-hour tracker (`MealState`) -/

/-- The structured output schema of the food vision call
(pydantic model `FoodAnalysis`). -/
structure FoodAnalysis where
  image_description : String
  calorie_intake : Int
deriving Repr, DecidableEq

/-- The single row built by `record_time_with_notes` and appended by
`submit_meal`; the history query selects the same columns. -/
structure MealRow where
  current_time : String
  current_time_plus_8h : String
  notes : String
  calorie : Int
deriving Repr, DecidableEq

/-- The mutable per-session state of the meal tracker (the field
defaults are the class-level initialisers of `MealState`). -/
structure MealState where
  notes : String := ""
  current_time : String := ""
  window_end_time : String := ""
  success_message : String := ""
  error_message : String := ""
  meal_history : List MealRow := []
  is_loading : Bool := false
  uploaded_files : List String := []
  image_uri : String := ""
  image_preview : String := ""
  calorie_estimate : Int := 0
  food_description : String := ""
  temp_file_data : List Nat := []
  is_analyzing : Bool := false
deriving Repr, DecidableEq

/-- A warehouse call issued by `submit_meal`. -/
inductive MealCall
  | append (row : MealRow)
  | queryHistory
deriving Repr, DecidableEq

/-- Outcomes of the remote calls `submit_meal` may reach:
`appendResult = some e` models `df.to_gbq` raising `e`. -/
structure MealEnv where
  appendResult : Option String
  historyResult : Except String (List MealRow)

namespace MealState

/-- `handle_file_select`: clear the error message, then for each file
either buffer its bytes and set the base64 preview, or record a load
error (`file.read()` raising is the `.error` case). -/
def handle_file_select (s : MealState)
    (files : List (Except String (List Nat))) : MealState :=
  files.foldl
    (fun s file =>
      match file with
      | .ok upload_data =>
          { s with temp_file_data := upload_data,
                   image_preview := "data:image/png;base64," ++ b64EncodeStr upload_data }
      | .error e => { s with error_message := "Error loading image: " ++ e })
    { s with error_message := "" }

/-- `analyze_food_image`: with `extract` the outcome of the Gemini
call, return the updated state and, when the call raised, the re-raised
exception (`some e`) for the caller to catch. -/
def analyze_food_image (s : MealState)
    (extract : Except String FoodAnalysis) : MealState × Option String :=
  if s.image_uri = "" then (s, none)
  else
    match extract with
    | .error e => ({ s with error_message := "Error analyzing image: " ++ e }, some e)
    | .ok result =>
        ({ s with food_description := result.image_description,
                  calorie_estimate := result.calorie_intake,
                  notes := result.image_description ++ " (Est. " ++
                    toString result.calorie_intake ++ " calories)" }, none)

/-- `handle_upload_and_analyze`: guard on a selected file, set the busy
flag, upload, record the new `gs://` URI, analyze, and clear the busy
flag in the `finally` on every path.  Any exception — including the one
re-raised by `analyze_food_image` — lands in the single `except`
clause, which labels it an upload error. -/
def handle_upload_and_analyze (s : MealState) (uuid : String)
    (upload : Option String) (extract : Except String FoodAnalysis) : MealState :=
  if s.temp_file_data = [] then
    { s with error_message := "Please select an image first!" }
  else
    let s := { s with is_analyzing := true, error_message := "" }
    match upload with
    | some e =>
        { s with error_message := "Error uploading image: " ++ e, is_analyzing := false }
    | none =>
        let s := { s with
          image_uri := "gs://personal_assistant_agent/meal_images/" ++ uuid ++ ".png" }
        match analyze_food_image s extract with
        | (s, some e) =>
            { s with error_message := "Error uploading image: " ++ e, is_analyzing := false }
        | (s, none) => { s with is_analyzing := false }

/-- `clear_image`: reset the image buffer, preview, URI and analysis fields. -/
def clear_image (s : MealState) : MealState :=
  { s with image_uri := "", image_preview := "", calorie_estimate := 0,
           food_description := "", temp_file_data := [] }

/-- `record_time_with_notes`: one clock sample `now` (seconds since the
epoch), its `+ timedelta(hours=8)` companion, both rendered with
`strftime("%Y-%m-%d %H:%M:%S")`, paired with the notes and calorie
estimate as a single row. -/
def record_time_with_notes (now : Nat) (notes : String) (calorie : Int) : MealRow :=
  let plus_8h := now + 8 * 3600
  { current_time := fmtDateTime now, current_time_plus_8h := fmtDateTime plus_8h,
    notes := notes, calorie := calorie }

/-- `get_meal_history`: install the query result, or record a
history-loading error. -/
def get_meal_history (s : MealState)
    (res : Except String (List MealRow)) : MealState :=
  match res with
  | .ok rows => { s with meal_history := rows }
  | .error e => { s with error_message := "Error loading history: " ++ e }

/-- The body of `submit_meal`'s try block after `record_time_with_notes`
has built the row `df`: mirror the row's two timestamps into the display
fields, append the row, and on success show the success message, clear
the note and image and refresh the history; the busy flag is cleared in
the `finally` on every path. -/
def submit_meal_core (s : MealState) (df : MealRow) (env : MealEnv) :
    MealState × List MealCall :=
  let s := { s with current_time := df.current_time,
                    window_end_time := df.current_time_plus_8h }
  match env.appendResult with
  | some e =>
      ({ s with error_message := "❌ Error: " ++ e, is_loading := false }, [.append df])
  | none =>
      let s := { s with
        success_message := "Meal recorded! Your 8-hour eating window ends at " ++
          s.window_end_time,
        notes := "" }
      let s := clear_image s
      let s := get_meal_history s env.historyResult
      ({ s with is_loading := false }, [.append df, .queryHistory])

/-- `submit_meal`: clear messages, validate (non-blank note), build the
row from one clock sample `now`, then run the rest of the try block
(`submit_meal_core`).  The second component lists the warehouse calls
issued. -/
def submit_meal (s : MealState) (now : Nat) (env : MealEnv) :
    MealState × List MealCall :=
  let s := { s with error_message := "", success_message := "" }
  if py_strip s.notes = "" then
    ({ s with error_message := "Please enter a note about your meal!" }, [])
  else
    submit_meal_core { s with is_loading := true }
      (record_time_with_notes now s.notes s.calorie_estimate) env

end MealState

/-! ## Concrete fixtures used by counterexamples and witnesses -/

/-- A fitness environment in which every remote call succeeds. -/
def envOkF : FitnessEnv :=
  { appendResult := none, historyResult := .ok [], dailyResult := .ok (0, 0),
    weeklyResult := .ok (0, 0) }

/-- A fitness environment in which the warehouse append raises. -/
def envErrF : FitnessEnv :=
  { appendResult := some "boom", historyResult := .ok [], dailyResult := .ok (0, 0),
    weeklyResult := .ok (0, 0) }

/-- A meal environment in which every remote call succeeds. -/
def envOkM : MealEnv := { appendResult := none, historyResult := .ok [] }

/-- A meal environment in which the warehouse append raises. -/
def envErrM : MealEnv := { appendResult := some "boom", historyResult := .ok [] }

/-- A filled-in fitness draft ready to submit. -/
def sFit : WorkoutState :=
  { notes := "morning run", exercise_type := "Running", duration_hours := 1,
    duration_minutes := 30, calories_burned := 400,
    image_uri := "gs://personal_assistant_agent/workout_images/a.png" }

/-- A filled-in meal draft ready to submit. -/
def sMeal : MealState :=
  { notes := "soup", calorie_estimate := 250,
    image_uri := "gs://personal_assistant_agent/meal_images/b.png" }

/-- A fitness draft with no exercise type selected and a stale success
message from an earlier submission. -/
def sFitNoType : WorkoutState :=
  { success_message := "Workout recorded! stale", notes := "note" }

/-- A fitness draft with an exercise type but both duration fields zero. -/
def sFitNoDuration : WorkoutState := { exercise_type := "Yoga" }

/-- A meal draft whose note is whitespace only. -/
def sMealBlank : MealState := { notes := "   " }

/-- A fitness draft with a file selected (bytes buffered). -/
def sFitSelected : WorkoutState := { temp_file_data := [7, 7] }

/-- A meal draft with a file selected (bytes buffered). -/
def sMealSelected : MealState := { temp_file_data := [7] }

/-- If a string is nonempty, appending further strings to it keeps it
nonempty. -/
theorem string_append_ne_empty (a b c : String) (h : a.data ≠ []) :
    a ++ b ++ c ≠ "" := by
  intro habc
  have hd := congrArg String.data habc
  simp only [String.data_append] at hd
  exact h (List.append_eq_nil.mp (List.append_eq_nil.mp hd).1).1

/-- `submit_meal` on a blank note short-circuits with the validation
message and no calls. -/
theorem submit_meal_invalid (s : MealState) (now : Nat) (env : MealEnv)
    (h : py_strip s.notes = "") :
    MealState.submit_meal s now env =
      ({ s with error_message := "Please enter a note about your meal!",
                success_message := "" }, []) := by
  unfold MealState.submit_meal
  rw [if_pos h]

/-- `submit_meal` on a non-blank note runs the rest of the try block on
the row built from the single clock sample. -/
theorem submit_meal_validated (s : MealState) (now : Nat) (env : MealEnv)
    (h : py_strip s.notes ≠ "") :
    MealState.submit_meal s now env =
      MealState.submit_meal_core
        { s with error_message := "", success_message := "", is_loading := true }
        (MealState.record_time_with_notes now s.notes s.calorie_estimate) env := by
  unfold MealState.submit_meal
  rw [if_neg h]

/-- Evaluation of `submit_meal_core` when the append raises. -/
theorem submit_meal_core_err (s : MealState) (df : MealRow)
    (hr : Except String (List MealRow)) (e : String) :
    MealState.submit_meal_core s df { appendResult := some e, historyResult := hr } =
      ({ s with current_time := df.current_time,
                window_end_time := df.current_time_plus_8h,
                error_message := "❌ Error: " ++ e, is_loading := false },
       [.append df]) := rfl

/-- The busy flag of `submit_meal_core`'s resulting state is false on
every path. -/
theorem submit_meal_core_is_loading (s : MealState) (df : MealRow) (env : MealEnv) :
    (MealState.submit_meal_core s df env).1.is_loading = false := by
  obtain ⟨ar, hr⟩ := env
  cases ar with
  | some e => rfl
  | none => cases hr with
    | ok rows => rfl
    | error e => rfl

/-- `submit_workout` with no exercise type short-circuits with the
validation message and no calls. -/
theorem submit_workout_no_type (s : WorkoutState) (now : Nat) (env : FitnessEnv)
    (h : s.exercise_type = "") :
    WorkoutState.submit_workout s now env =
      ({ s with error_message := "Please select an exercise type!",
                success_message := "" }, []) := by
  unfold WorkoutState.submit_workout
  rw [if_pos h]

/-- `submit_workout` with an exercise type but a zero duration
short-circuits with the validation message and no calls. -/
theorem submit_workout_no_duration (s : WorkoutState) (now : Nat) (env : FitnessEnv)
    (h1 : s.exercise_type ≠ "") (h2 : s.duration_hours = 0) (h3 : s.duration_minutes = 0) :
    WorkoutState.submit_workout s now env =
      ({ s with error_message := "Please enter a duration!",
                success_message := "" }, []) := by
  unfold WorkoutState.submit_workout
  rw [if_neg h1, if_pos ⟨h2, h3⟩]

/-- The warehouse calls issued by a validated `submit_workout`: the
append of the single derived row, followed on success by the three
refresh queries. -/
theorem submit_workout_calls (s : WorkoutState) (now : Nat) (env : FitnessEnv)
    (h1 : s.exercise_type ≠ "")
    (h2 : ¬(s.duration_hours = 0 ∧ s.duration_minutes = 0)) :
    (WorkoutState.submit_workout s now env).2 =
      FitnessCall.append
        { workout_timestamp := now, exercise_type := s.exercise_type,
          duration_hours := (s.duration_hours : Rat) + (s.duration_minutes : Rat) / 60,
          duration_minutes := s.duration_minutes, calories_burned := s.calories_burned,
          notes := s.notes, image_uri := if s.image_uri = "" then "" else s.image_uri,
          created_at := now } ::
      (match env.appendResult with
       | some _ => []
       | none => [.queryHistory, .queryDaily, .queryWeekly]) := by
  obtain ⟨ar, hr, dr, wr⟩ := env
  cases ar with
  | some e =>
      unfold WorkoutState.submit_workout
      rw [if_neg h1, if_neg h2]
  | none =>
      unfold WorkoutState.submit_workout
      rw [if_neg h1, if_neg h2]

/-- A validated `submit_workout` always ends with the busy flag cleared. -/
theorem submit_workout_is_loading (s : WorkoutState) (now : Nat) (env : FitnessEnv)
    (h1 : s.exercise_type ≠ "")
    (h2 : ¬(s.duration_hours = 0 ∧ s.duration_minutes = 0)) :
    (WorkoutState.submit_workout s now env).1.is_loading = false := by
  obtain ⟨ar, hr, dr, wr⟩ := env
  cases ar with
  | some e =>
      unfold WorkoutState.submit_workout
      rw [if_neg h1, if_neg h2]
  | none =>
      unfold WorkoutState.submit_workout
      rw [if_neg h1, if_neg h2]

/-- Evaluation of `analyze_workout_image` with a non-empty URI when the
vision call raises: the analysis message is recorded and the exception
re-raised. -/
theorem analyze_workout_image_err (s : WorkoutState) (e : String)
    (h : s.image_uri ≠ "") :
    WorkoutState.analyze_workout_image s (Except.error e) =
      ({ s with error_message := "Error analyzing image: " ++ e }, some e) := by
  unfold WorkoutState.analyze_workout_image
  rw [if_neg h]

/-- Evaluation of `analyze_workout_image` with a non-empty URI when the
vision call succeeds: the extracted fields overwrite the form. -/
theorem analyze_workout_image_ok (s : WorkoutState) (r : WorkoutAnalysis)
    (h : s.image_uri ≠ "") :
    WorkoutState.analyze_workout_image s (Except.ok r) =
      ({ s with workout_description := r.image_description,
                exercise_type := r.exercise_type,
                duration_hours := r.duration_hours,
                duration_minutes := r.duration_minutes,
                calories_burned := r.calories_burned,
                notes := r.image_description }, none) := by
  unfold WorkoutState.analyze_workout_image
  rw [if_neg h]

/-- Evaluation of `analyze_food_image` with a non-empty URI when the
vision call raises. -/
theorem analyze_food_image_err (s : MealState) (e : String)
    (h : s.image_uri ≠ "") :
    MealState.analyze_food_image s (Except.error e) =
      ({ s with error_message := "Error analyzing image: " ++ e }, some e) := by
  unfold MealState.analyze_food_image
  rw [if_neg h]

/-- Evaluation of `analyze_food_image` with a non-empty URI when the
vision call succeeds. -/
theorem analyze_food_image_ok (s : MealState) (r : FoodAnalysis)
    (h : s.image_uri ≠ "") :
    MealState.analyze_food_image s (Except.ok r) =
      ({ s with food_description := r.image_description,
                calorie_estimate := r.calorie_intake,
                notes := r.image_description ++ " (Est. " ++
                  toString r.calorie_intake ++ " calories)" }, none) := by
  unfold MealState.analyze_food_image
  rw [if_neg h]

/-- Evaluation of the fitness `handle_upload_and_analyze` when the
upload raises. -/
theorem handle_upload_f_upload_err (s : WorkoutState) (uuid e : String)
    (extract : Except String WorkoutAnalysis) (h : s.temp_file_data ≠ []) :
    WorkoutState.handle_upload_and_analyze s uuid (some e) extract =
      { s with error_message := "Error uploading image: " ++ e,
               is_analyzing := false } := by
  unfold WorkoutState.handle_upload_and_analyze
  rw [if_neg h]

/-- Evaluation of the fitness `handle_upload_and_analyze` when the
upload succeeds but the extraction raises: the re-raised exception is
caught by the caller's upload-error handler, which overwrites the
analysis message; the uploaded URI is retained. -/
theorem handle_upload_f_extract_err (s : WorkoutState) (uuid e : String)
    (h : s.temp_file_data ≠ []) :
    WorkoutState.handle_upload_and_analyze s uuid none (Except.error e) =
      { s with
        image_uri := "gs://personal_assistant_agent/workout_images/" ++ uuid ++ ".png",
        error_message := "Error uploading image: " ++ e,
        is_analyzing := false } := by
  unfold WorkoutState.handle_upload_and_analyze
  rw [if_neg h]
  dsimp only
  rw [analyze_workout_image_err _ e
      (string_append_ne_empty "gs://personal_assistant_agent/workout_images/" uuid ".png"
        (by decide))]

/-- Evaluation of the fitness `handle_upload_and_analyze` when upload
and extraction both succeed. -/
theorem handle_upload_f_ok (s : WorkoutState) (uuid : String) (r : WorkoutAnalysis)
    (h : s.temp_file_data ≠ []) :
    WorkoutState.handle_upload_and_analyze s uuid none (Except.ok r) =
      { s with
        image_uri := "gs://personal_assistant_agent/workout_images/" ++ uuid ++ ".png",
        workout_description := r.image_description,
        exercise_type := r.exercise_type,
        duration_hours := r.duration_hours,
        duration_minutes := r.duration_minutes,
        calories_burned := r.calories_burned,
        notes := r.image_description,
        error_message := "",
        is_analyzing := false } := by
  unfold WorkoutState.handle_upload_and_analyze
  rw [if_neg h]
  dsimp only
  rw [analyze_workout_image_ok _ r
      (string_append_ne_empty "gs://personal_assistant_agent/workout_images/" uuid ".png"
        (by decide))]

/-- Evaluation of the meal `handle_upload_and_analyze` when the upload
raises. -/
theorem handle_upload_m_upload_err (s : MealState) (uuid e : String)
    (extract : Except String FoodAnalysis) (h : s.temp_file_data ≠ []) :
    MealState.handle_upload_and_analyze s uuid (some e) extract =
      { s with error_message := "Error uploading image: " ++ e,
               is_analyzing := false } := by
  unfold MealState.handle_upload_and_analyze
  rw [if_neg h]

/-- Evaluation of the meal `handle_upload_and_analyze` when the upload
succeeds but the extraction raises. -/
theorem handle_upload_m_extract_err (s : MealState) (uuid e : String)
    (h : s.temp_file_data ≠ []) :
    MealState.handle_upload_and_analyze s uuid none (Except.error e) =
      { s with
        image_uri := "gs://personal_assistant_agent/meal_images/" ++ uuid ++ ".png",
        error_message := "Error uploading image: " ++ e,
        is_analyzing := false } := by
  unfold MealState.handle_upload_and_analyze
  rw [if_neg h]
  dsimp only
  rw [analyze_food_image_err _ e
      (string_append_ne_empty "gs://personal_assistant_agent/meal_images/" uuid ".png"
        (by decide))]

/-- Evaluation of the meal `handle_upload_and_analyze` when upload and
extraction both succeed. -/
theorem handle_upload_m_ok (s : MealState) (uuid : String) (r : FoodAnalysis)
    (h : s.temp_file_data ≠ []) :
    MealState.handle_upload_and_analyze s uuid none (Except.ok r) =
      { s with
        image_uri := "gs://personal_assistant_agent/meal_images/" ++ uuid ++ ".png",
        food_description := r.image_description,
        calorie_estimate := r.calorie_intake,
        notes := r.image_description ++ " (Est. " ++ toString r.calorie_intake ++ " calories)",
        error_message := "",
        is_analyzing := false } := by
  unfold MealState.handle_upload_and_analyze
  rw [if_neg h]
  dsimp only
  rw [analyze_food_image_ok _ r
      (string_append_ne_empty "gs://personal_assistant_agent/meal_images/" uuid ".png"
        (by decide))]

/-! ## Claims -/

/-- C1, counterexample: a second `handle_file_select` after a prior
upload and analysis leaves the old `image_uri` and the old extracted
description in place — the claim says both are cleared. -/
theorem C1_counterexample :
    (WorkoutState.handle_file_select
        { image_uri := "gs://personal_assistant_agent/workout_images/old.png",
          workout_description := "old analysis", error_message := "old error" }
        [Except.ok [1, 2, 3]]).image_uri ≠ "" ∧
    (WorkoutState.handle_file_select
        { image_uri := "gs://personal_assistant_agent/workout_images/old.png",
          workout_description := "old analysis", error_message := "old error" }
        [Except.ok [1, 2, 3]]).workout_description ≠ "" := by
  decide

/-- C1, amended: for every prior draft state, `handle_file_select` on a
successfully read file stores the bytes, computes the base64 preview
and clears the prior error message, and changes nothing else — in
particular the prior `image_uri` and extracted fields are NOT cleared
(they persist until `clear_image` or the next successful upload
overwrites them).  Both tracker variants behave identically. -/
theorem C1_select_stores_bytes_and_clears_error_only :
    (∀ (s : WorkoutState) (bytes : List Nat),
      WorkoutState.handle_file_select s [Except.ok bytes] =
        { s with error_message := "", temp_file_data := bytes,
                 image_preview := "data:image/png;base64," ++ b64EncodeStr bytes }) ∧
    (∀ (s : MealState) (bytes : List Nat),
      MealState.handle_file_select s [Except.ok bytes] =
        { s with error_message := "", temp_file_data := bytes,
                 image_preview := "data:image/png;base64," ++ b64EncodeStr bytes }) := by
  exact ⟨fun s bytes => rfl, fun s bytes => rfl⟩

/-- C2: if the warehouse append raises during submit, all form fields
and the image URI keep the values they held at invocation, no success
message is set, and an error message is set instead. -/
theorem C2_append_failure_preserves_draft :
    (∀ (s : WorkoutState) (now : Nat) (env : FitnessEnv) (e : String),
      s.exercise_type ≠ "" →
      ¬(s.duration_hours = 0 ∧ s.duration_minutes = 0) →
      env.appendResult = some e →
      (WorkoutState.submit_workout s now env).1.notes = s.notes ∧
      (WorkoutState.submit_workout s now env).1.exercise_type = s.exercise_type ∧
      (WorkoutState.submit_workout s now env).1.duration_hours = s.duration_hours ∧
      (WorkoutState.submit_workout s now env).1.duration_minutes = s.duration_minutes ∧
      (WorkoutState.submit_workout s now env).1.calories_burned = s.calories_burned ∧
      (WorkoutState.submit_workout s now env).1.image_uri = s.image_uri ∧
      (WorkoutState.submit_workout s now env).1.success_message = "" ∧
      (WorkoutState.submit_workout s now env).1.error_message = "Error: " ++ e) ∧
    (∀ (s : MealState) (now : Nat) (env : MealEnv) (e : String),
      py_strip s.notes ≠ "" →
      env.appendResult = some e →
      (MealState.submit_meal s now env).1.notes = s.notes ∧
      (MealState.submit_meal s now env).1.image_uri = s.image_uri ∧
      (MealState.submit_meal s now env).1.success_message = "" ∧
      (MealState.submit_meal s now env).1.error_message = "❌ Error: " ++ e) := by
  constructor
  · intro s now env e h1 h2 h3
    simp [WorkoutState.submit_workout, if_neg h1, if_neg h2, h3]
  · intro s now env e h1 h2
    obtain ⟨ar, hr⟩ := env
    obtain rfl : ar = some e := h2
    have h := submit_meal_validated s now { appendResult := some e, historyResult := hr } h1
    obtain ⟨df, hdf⟩ :
        ∃ df, MealState.record_time_with_notes now s.notes s.calorie_estimate = df :=
      ⟨_, rfl⟩
    rw [hdf] at h
    rw [h, submit_meal_core_err]
    exact ⟨rfl, rfl, rfl, rfl⟩

/-- C2, witness at a concrete draft and a failing append. -/
theorem C2_witness :
    ((WorkoutState.submit_workout sFit 0 envErrF).1.notes = sFit.notes ∧
     (WorkoutState.submit_workout sFit 0 envErrF).1.exercise_type = sFit.exercise_type ∧
     (WorkoutState.submit_workout sFit 0 envErrF).1.duration_hours = sFit.duration_hours ∧
     (WorkoutState.submit_workout sFit 0 envErrF).1.duration_minutes = sFit.duration_minutes ∧
     (WorkoutState.submit_workout sFit 0 envErrF).1.calories_burned = sFit.calories_burned ∧
     (WorkoutState.submit_workout sFit 0 envErrF).1.image_uri = sFit.image_uri ∧
     (WorkoutState.submit_workout sFit 0 envErrF).1.success_message = "" ∧
     (WorkoutState.submit_workout sFit 0 envErrF).1.error_message = "Error: " ++ "boom") ∧
    ((MealState.submit_meal sMeal 0 envErrM).1.notes = sMeal.notes ∧
     (MealState.submit_meal sMeal 0 envErrM).1.image_uri = sMeal.image_uri ∧
     (MealState.submit_meal sMeal 0 envErrM).1.success_message = "" ∧
     (MealState.submit_meal sMeal 0 envErrM).1.error_message = "❌ Error: " ++ "boom") :=
  ⟨C2_append_failure_preserves_draft.1 sFit 0 envErrF "boom" (by decide) (by decide) rfl,
   C2_append_failure_preserves_draft.2 sMeal 0 envErrM "boom" (by decide) rfl⟩

/-- C3, counterexample: the weekly query's filter is
`DATE_SUB(CURRENT_DATE(), INTERVAL 7 DAY)`, so a record dated
`today - 7` — earlier than the `today - 6` bound the claim states — is
summed, and the query disagrees with the claimed 7-day window. -/
theorem C3_counterexample :
    weekly_totals_query 10 [{ workout_date := 3, duration_hours := 2, calories_burned := 100 }] =
      (2, 100) ∧
    (3 : Int) < 10 - 6 ∧
    weekly_totals_query 10 [{ workout_date := 3, duration_hours := 2, calories_burned := 100 }] ≠
      claimed_weekly_totals 10
        [{ workout_date := 3, duration_hours := 2, calories_burned := 100 }] := by
  norm_num [weekly_totals_query, claimed_weekly_totals, List.filter_cons, Prod.ext_iff]

/-- C3, amended: the weekly aggregate sums measures over exactly the
records whose date is at least `today - 7` — an 8-day trailing window
including today — and over no records dated earlier. -/
theorem C3_weekly_window_is_8_days :
    ∀ (today : Int) (table : List FitnessTableRow),
      weekly_totals_query today table = spec_weekly_window_sum today table := by
  intro today table
  induction table with
  | nil => rfl
  | cons r rs ih =>
      have hd := congrArg Prod.fst ih
      have hc := congrArg Prod.snd ih
      simp only [weekly_totals_query] at hd hc
      simp only [weekly_totals_query, spec_weekly_window_sum, List.filter_cons]
      by_cases h : today - 7 ≤ r.workout_date
      · rw [if_pos (decide_eq_true h), if_pos h]
        simp only [List.map_cons, List.sum_cons]
        rw [hd, hc]
      · rw [if_neg (by simp [h]), if_neg h]
        exact ih

/-- C4: each submission is built from one clock sample: the fitness
append row has `workout_timestamp = created_at`, and the meal row built
by `record_time_with_notes` renders `now` and `now + 8h` of the same
sampled instant. -/
theorem C4_single_clock_sample :
    (∀ (s : WorkoutState) (now : Nat) (env : FitnessEnv),
      s.exercise_type ≠ "" →
      ¬(s.duration_hours = 0 ∧ s.duration_minutes = 0) →
      ∃ (row : FitnessRow) (rest : List FitnessCall),
        (WorkoutState.submit_workout s now env).2 = FitnessCall.append row :: rest ∧
        row.workout_timestamp = now ∧ row.created_at = now) ∧
    (∀ (now : Nat) (notes : String) (calorie : Int),
      (MealState.record_time_with_notes now notes calorie).current_time =
        fmtDateTime now ∧
      (MealState.record_time_with_notes now notes calorie).current_time_plus_8h =
        fmtDateTime (now + 8 * 3600)) := by
  constructor
  · intro s now env h1 h2
    exact ⟨_, _, submit_workout_calls s now env h1 h2, rfl, rfl⟩
  · intro now notes calorie
    exact ⟨rfl, rfl⟩

/-- C4, witness at a concrete draft and clock sample. -/
theorem C4_witness :
    ∃ (row : FitnessRow) (rest : List FitnessCall),
      (WorkoutState.submit_workout sFit 5 envOkF).2 = FitnessCall.append row :: rest ∧
      row.workout_timestamp = 5 ∧ row.created_at = 5 :=
  C4_single_clock_sample.1 sFit 5 envOkF (by decide) (by decide)

/-- C5: the persisted fitness duration is the unrounded fractional-hour
value `hours + minutes / 60`. -/
theorem C5_duration_formula :
    ∀ (s : WorkoutState) (now : Nat) (env : FitnessEnv),
      s.exercise_type ≠ "" →
      ¬(s.duration_hours = 0 ∧ s.duration_minutes = 0) →
      ∃ (row : FitnessRow) (rest : List FitnessCall),
        (WorkoutState.submit_workout s now env).2 = FitnessCall.append row :: rest ∧
        row.duration_hours = (s.duration_hours : Rat) + (s.duration_minutes : Rat) / 60 := by
  intro s now env h1 h2
  exact ⟨_, _, submit_workout_calls s now env h1 h2, rfl⟩

/-- C5, witness: hours = 1 and minutes = 30 persist exactly 3/2 hours. -/
theorem C5_witness :
    ∃ (row : FitnessRow) (rest : List FitnessCall),
      (WorkoutState.submit_workout sFit 0 envOkF).2 = FitnessCall.append row :: rest ∧
      row.duration_hours = 3 / 2 := by
  obtain ⟨row, rest, hc, hd⟩ := C5_duration_formula sFit 0 envOkF (by decide) (by decide)
  refine ⟨row, rest, hc, ?_⟩
  rw [hd]
  norm_num [sFit]

/-- C6: the meal row's window-end field is `now + 8h` rendered with
`strftime("%Y-%m-%d %H:%M:%S")` and no timezone conversion; at
wall-clock 2024-01-01 12:00:00 it is exactly "2024-01-01 20:00:00". -/
theorem C6_plus8h_format :
    (∀ (now : Nat) (notes : String) (calorie : Int),
      (MealState.record_time_with_notes now notes calorie).current_time_plus_8h =
        fmtDateTime (now + 8 * 3600)) ∧
    (MealState.record_time_with_notes 1704110400 "lunch" 250).current_time =
      "2024-01-01 12:00:00" ∧
    (MealState.record_time_with_notes 1704110400 "lunch" 250).current_time_plus_8h =
      "2024-01-01 20:00:00" :=
  ⟨fun _ _ _ => rfl, by decide, by decide⟩

/-- C7, counterexample: with a category-less draft that still carries a
stale success message, the short-circuiting validation ALSO clears the
success message, so the post-state is not "no state change besides the
error message"; the actual result clears both messages and issues no
calls. -/
theorem C7_counterexample :
    (WorkoutState.submit_workout sFitNoType 0 envOkF).1 ≠
      { sFitNoType with error_message := "Please select an exercise type!" } ∧
    (WorkoutState.submit_workout sFitNoType 0 envOkF).1 =
      { sFitNoType with error_message := "Please select an exercise type!",
                        success_message := "" } ∧
    (WorkoutState.submit_workout sFitNoType 0 envOkF).2 = [] := by
  have heval := submit_workout_no_type sFitNoType 0 envOkF rfl
  refine ⟨?_, ?_, ?_⟩
  · rw [heval]
    intro hEq
    have hmsg := congrArg WorkoutState.success_message hEq
    revert hmsg
    decide
  · rw [heval]
  · rw [heval]

/-- C7, amended: the submit precondition checks run in order, each
short-circuiting with its own distinct message and zero collaborator
calls; the only state changes besides the error message are the
clearing of the error and success messages performed at entry. -/
theorem C7_validation_order :
    (∀ (s : WorkoutState) (now : Nat) (env : FitnessEnv),
      s.exercise_type = "" →
      WorkoutState.submit_workout s now env =
        ({ s with error_message := "Please select an exercise type!",
                  success_message := "" }, [])) ∧
    (∀ (s : WorkoutState) (now : Nat) (env : FitnessEnv),
      s.exercise_type ≠ "" → s.duration_hours = 0 → s.duration_minutes = 0 →
      WorkoutState.submit_workout s now env =
        ({ s with error_message := "Please enter a duration!",
                  success_message := "" }, [])) ∧
    (∀ (s : MealState) (now : Nat) (env : MealEnv),
      py_strip s.notes = "" →
      MealState.submit_meal s now env =
        ({ s with error_message := "Please enter a note about your meal!",
                  success_message := "" }, [])) :=
  ⟨submit_workout_no_type, submit_workout_no_duration, submit_meal_invalid⟩

/-- C7, witness at the three concrete invalid drafts. -/
theorem C7_witness :
    (WorkoutState.submit_workout sFitNoType 0 envOkF =
      ({ sFitNoType with error_message := "Please select an exercise type!",
                         success_message := "" }, [])) ∧
    (WorkoutState.submit_workout sFitNoDuration 0 envOkF =
      ({ sFitNoDuration with error_message := "Please enter a duration!",
                             success_message := "" }, [])) ∧
    (MealState.submit_meal sMealBlank 0 envOkM =
      ({ sMealBlank with error_message := "Please enter a note about your meal!",
                         success_message := "" }, [])) :=
  ⟨C7_validation_order.1 sFitNoType 0 envOkF (by decide),
   C7_validation_order.2.1 sFitNoDuration 0 envOkF (by decide) (by decide) (by decide),
   C7_validation_order.2.2 sMealBlank 0 envOkM (by decide)⟩

/-- C8, counterexample: when the upload succeeds and the extraction
raises "boom", the surfaced message is the caller's upload-error
wrapper, not the analysis-error message the inner handler had set. -/
theorem C8_counterexample :
    (WorkoutState.handle_upload_and_analyze sFitSelected "u1" none
        (Except.error "boom")).error_message = "Error uploading image: boom" ∧
    (WorkoutState.handle_upload_and_analyze sFitSelected "u1" none
        (Except.error "boom")).error_message ≠ "Error analyzing image: boom" := by
  have heval := handle_upload_f_extract_err sFitSelected "u1" "boom" (by decide)
  rw [heval]
  exact ⟨rfl, by decide⟩

/-- C8, amended: after a successful upload and a failed extraction the
workflow ends un-busy with the freshly assigned `image_uri` retained,
but the surfaced message is the caller's generic
"Error uploading image: ..." wrapper (the analysis-specific message set
by the inner handler is overwritten when the re-raised exception is
caught by the caller), so the surfaced reason is not distinct from an
upload error. -/
theorem C8_extract_failure_keeps_uri :
    (∀ (s : WorkoutState) (uuid e : String), s.temp_file_data ≠ [] →
      (WorkoutState.handle_upload_and_analyze s uuid none (Except.error e)).image_uri =
        "gs://personal_assistant_agent/workout_images/" ++ uuid ++ ".png" ∧
      (WorkoutState.handle_upload_and_analyze s uuid none (Except.error e)).error_message =
        "Error uploading image: " ++ e ∧
      (WorkoutState.handle_upload_and_analyze s uuid none (Except.error e)).is_analyzing =
        false) ∧
    (∀ (s : MealState) (uuid e : String), s.temp_file_data ≠ [] →
      (MealState.handle_upload_and_analyze s uuid none (Except.error e)).image_uri =
        "gs://personal_assistant_agent/meal_images/" ++ uuid ++ ".png" ∧
      (MealState.handle_upload_and_analyze s uuid none (Except.error e)).error_message =
        "Error uploading image: " ++ e ∧
      (MealState.handle_upload_and_analyze s uuid none (Except.error e)).is_analyzing =
        false) := by
  constructor
  · intro s uuid e h
    rw [handle_upload_f_extract_err s uuid e h]
    exact ⟨rfl, rfl, rfl⟩
  · intro s uuid e h
    rw [handle_upload_m_extract_err s uuid e h]
    exact ⟨rfl, rfl, rfl⟩

/-- C8, witness at concrete drafts with a buffered file. -/
theorem C8_witness :
    ((WorkoutState.handle_upload_and_analyze sFitSelected "u1" none
        (Except.error "boom")).image_uri =
      "gs://personal_assistant_agent/workout_images/" ++ "u1" ++ ".png" ∧
     (WorkoutState.handle_upload_and_analyze sFitSelected "u1" none
        (Except.error "boom")).error_message = "Error uploading image: " ++ "boom" ∧
     (WorkoutState.handle_upload_and_analyze sFitSelected "u1" none
        (Except.error "boom")).is_analyzing = false) ∧
    ((MealState.handle_upload_and_analyze sMealSelected "u2" none
        (Except.error "boom")).image_uri =
      "gs://personal_assistant_agent/meal_images/" ++ "u2" ++ ".png" ∧
     (MealState.handle_upload_and_analyze sMealSelected "u2" none
        (Except.error "boom")).error_message = "Error uploading image: " ++ "boom" ∧
     (MealState.handle_upload_and_analyze sMealSelected "u2" none
        (Except.error "boom")).is_analyzing = false) :=
  ⟨C8_extract_failure_keeps_uri.1 sFitSelected "u1" "boom" (by decide),
   C8_extract_failure_keeps_uri.2 sMealSelected "u2" "boom" (by decide)⟩

/-- C9: every exit path of the analyze and submit operations that
enters the try block — upload failure, extraction failure (re-raised
past the inner catch), append failure, or success — leaves the
corresponding busy flag false. -/
theorem C9_busy_flags_cleared :
    (∀ (s : WorkoutState) (uuid : String) (upload : Option String)
        (extract : Except String WorkoutAnalysis), s.temp_file_data ≠ [] →
      (WorkoutState.handle_upload_and_analyze s uuid upload extract).is_analyzing = false) ∧
    (∀ (s : MealState) (uuid : String) (upload : Option String)
        (extract : Except String FoodAnalysis), s.temp_file_data ≠ [] →
      (MealState.handle_upload_and_analyze s uuid upload extract).is_analyzing = false) ∧
    (∀ (s : WorkoutState) (now : Nat) (env : FitnessEnv),
      s.exercise_type ≠ "" → ¬(s.duration_hours = 0 ∧ s.duration_minutes = 0) →
      (WorkoutState.submit_workout s now env).1.is_loading = false) ∧
    (∀ (s : MealState) (now : Nat) (env : MealEnv), py_strip s.notes ≠ "" →
      (MealState.submit_meal s now env).1.is_loading = false) := by
  refine ⟨?_, ?_, ?_, ?_⟩
  · intro s uuid upload extract h
    cases upload with
    | some e => rw [handle_upload_f_upload_err s uuid e extract h]
    | none =>
        cases extract with
        | error e => rw [handle_upload_f_extract_err s uuid e h]
        | ok r => rw [handle_upload_f_ok s uuid r h]
  · intro s uuid upload extract h
    cases upload with
    | some e => rw [handle_upload_m_upload_err s uuid e extract h]
    | none =>
        cases extract with
        | error e => rw [handle_upload_m_extract_err s uuid e h]
        | ok r => rw [handle_upload_m_ok s uuid r h]
  · exact submit_workout_is_loading
  · intro s now env h1
    rw [submit_meal_validated s now env h1]
    exact submit_meal_core_is_loading _ _ _

/-- C9, witness at concrete drafts, covering an upload failure, an
extraction failure, an append failure and a validated submit. -/
theorem C9_witness :
    ((WorkoutState.handle_upload_and_analyze sFitSelected "u1" (some "boom")
        (Except.error "x")).is_analyzing = false) ∧
    ((MealState.handle_upload_and_analyze sMealSelected "u2" none
        (Except.error "boom")).is_analyzing = false) ∧
    ((WorkoutState.submit_workout sFit 0 envErrF).1.is_loading = false) ∧
    ((MealState.submit_meal sMeal 0 envErrM).1.is_loading = false) :=
  ⟨C9_busy_flags_cleared.1 sFitSelected "u1" (some "boom") (Except.error "x") (by decide),
   C9_busy_flags_cleared.2.1 sMealSelected "u2" none (Except.error "boom") (by decide),
   C9_busy_flags_cleared.2.2.1 sFit 0 envErrF (by decide) (by decide),
   C9_busy_flags_cleared.2.2.2 sMeal 0 envErrM (by decide)⟩

/-- C10: the numeric form setters are total functions of the input
string — a string that Python `int()` rejects (the empty string
included) sets the field to 0, and a string parsing as `n` sets the
field to `n`; no input raises. -/
theorem C10_numeric_setters_total :
    ∀ (s : WorkoutState) (value : String),
      (pyInt value = none →
        (WorkoutState.set_duration_hours s value).duration_hours = 0 ∧
        (WorkoutState.set_duration_minutes s value).duration_minutes = 0 ∧
        (WorkoutState.set_calories_burned s value).calories_burned = 0) ∧
      (∀ n : Int, pyInt value = some n →
        (WorkoutState.set_duration_hours s value).duration_hours = n ∧
        (WorkoutState.set_duration_minutes s value).duration_minutes = n ∧
        (WorkoutState.set_calories_burned s value).calories_burned = n) := by
  intro s value
  by_cases hv : value = ""
  · subst hv
    constructor
    · intro _
      exact ⟨rfl, rfl, rfl⟩
    · intro n hn
      rw [show pyInt "" = none from rfl] at hn
      cases hn
  · constructor
    · intro hn
      simp [WorkoutState.set_duration_hours, WorkoutState.set_duration_minutes,
        WorkoutState.set_calories_burned, pyIntOrZero, hv, hn]
    · intro n hn
      simp [WorkoutState.set_duration_hours, WorkoutState.set_duration_minutes,
        WorkoutState.set_calories_burned, pyIntOrZero, hv, hn]

/-- C10, witness: a non-numeric string yields 0, "42" yields 42, the
empty string yields 0. -/
theorem C10_witness :
    ((WorkoutState.set_duration_hours sFit "abc").duration_hours = 0 ∧
     (WorkoutState.set_duration_minutes sFit "abc").duration_minutes = 0 ∧
     (WorkoutState.set_calories_burned sFit "abc").calories_burned = 0) ∧
    ((WorkoutState.set_duration_hours sFit "42").duration_hours = 42 ∧
     (WorkoutState.set_duration_minutes sFit "42").duration_minutes = 42 ∧
     (WorkoutState.set_calories_burned sFit "42").calories_burned = 42) ∧
    ((WorkoutState.set_duration_hours sFit "").duration_hours = 0 ∧
     (WorkoutState.set_duration_minutes sFit "").duration_minutes = 0 ∧
     (WorkoutState.set_calories_burned sFit "").calories_burned = 0) :=
  ⟨(C10_numeric_setters_total sFit "abc").1 (by decide),
   (C10_numeric_setters_total sFit "42").2 42 (by decide),
   (C10_numeric_setters_total sFit "").1 (by decide)⟩
